import Mathlib

/-!
Verification of the kicker-sp500 repository (src/detector.py, src/reader.py).

Prices are modelled as exact rationals.  Fallible Python code is embedded as
Except-valued functions; the blocking rate-limiter loop is embedded with an
explicit clock and fuel.  Definitions follow the source line by line; the
strict-kicker policy, which the spec requires but which is absent from src/,
is modelled from the spec and marked as such.
-/

namespace KickerSP500

/-- A previous-session daily candle, as built by get_prev_daily in
src/detector.py (keys Open, High, Low, Close; the Date field is not used by
the detector and is omitted). -/
structure PrevCandle where
  Open : ℚ
  High : ℚ
  Low : ℚ
  Close : ℚ
deriving DecidableEq

/-- A reference intraday candle, as built by get_premarket_0929 and
get_open_0930 in src/detector.py (keys Open, Close; Time and Type are not
used by the detector and are omitted). -/
structure IntraCandle where
  Open : ℚ
  Close : ℚ
deriving DecidableEq

/-- The classification signal returned by the detector. -/
inductive Signal where
  | bullish
  | bearish
deriving DecidableEq

/-- detect_kicker from src/detector.py (lines 220-241), the gap-threshold
policy.  The source computes gap_up = (o - prev_close) / prev_close and
gap_down = (prev_close - o) / prev_close; in Python a float division by zero
raises ZeroDivisionError, embedded here as the error branch taken exactly
when prev_close = 0.  Returns bullish when gap_up >= 0.005 and c > o,
bearish when gap_down >= 0.005 and c < o, and none otherwise. -/
def detect_kicker (prev : PrevCandle) (intra_candle : IntraCandle) :
    Except String (Option Signal) :=
  let prev_close := prev.Close
  let o := intra_candle.Open
  let c := intra_candle.Close
  if prev_close = 0 then
    Except.error ("ZeroDivisionError")
  else
    let gap_up := (o - prev_close) / prev_close
    let gap_down := (prev_close - o) / prev_close
    if (5 : ℚ)/1000 ≤ gap_up ∧ c > o then Except.ok (some Signal.bullish)
    else if (5 : ℚ)/1000 ≤ gap_down ∧ c < o then Except.ok (some Signal.bearish)
    else Except.ok none

/-- Modelled from the spec: the strict-kicker policy of spec section 4.3 is
not present in src/ (only the gap-threshold detect_kicker is); the spec says
both policies must be supported.  Bullish: the previous session body is
bearish (close < open), the reference open gaps above the previous high, and
the reference body confirms (close > open); bearish is the mirror image with
the gap below the previous low.  The optional volume confirmation is not
part of the claim and is omitted. -/
def detect_kicker_strict (prev : PrevCandle) (intra_candle : IntraCandle) :
    Option Signal :=
  if prev.Close < prev.Open ∧ intra_candle.Open > prev.High ∧
      intra_candle.Close > intra_candle.Open then
    some Signal.bullish
  else if prev.Close > prev.Open ∧ intra_candle.Open < prev.Low ∧
      intra_candle.Close < intra_candle.Open then
    some Signal.bearish
  else
    none

end KickerSP500

namespace KickerSP500

/-- C1: for every candle pair with positive previous close, detect_kicker
returns bullish iff the gap up is at least 0.5 percent and the reference
close exceeds its open, bearish iff the mirrored condition holds, and none
otherwise; in particular prevClose 100, referenceOpen 100.6, referenceClose
100.4 yields none. -/
theorem detect_kicker_gap_threshold_iff (prev : PrevCandle)
    (intra : IntraCandle) (h : 0 < prev.Close) :
    (detect_kicker prev intra = Except.ok (some Signal.bullish) ↔
      (5 : ℚ)/1000 ≤ (intra.Open - prev.Close) / prev.Close ∧
        intra.Close > intra.Open) ∧
    (detect_kicker prev intra = Except.ok (some Signal.bearish) ↔
      (5 : ℚ)/1000 ≤ (prev.Close - intra.Open) / prev.Close ∧
        intra.Close < intra.Open) ∧
    (detect_kicker prev intra = Except.ok none ↔
      ¬((5 : ℚ)/1000 ≤ (intra.Open - prev.Close) / prev.Close ∧
          intra.Close > intra.Open) ∧
      ¬((5 : ℚ)/1000 ≤ (prev.Close - intra.Open) / prev.Close ∧
          intra.Close < intra.Open)) ∧
    detect_kicker ⟨100, 100, 100, 100⟩ ⟨1006/10, 1004/10⟩ = Except.ok none := by
  have hne : prev.Close ≠ 0 := ne_of_gt h
  have key : detect_kicker prev intra =
      (if (5 : ℚ)/1000 ≤ (intra.Open - prev.Close) / prev.Close ∧
          intra.Close > intra.Open
       then Except.ok (some Signal.bullish)
       else if (5 : ℚ)/1000 ≤ (prev.Close - intra.Open) / prev.Close ∧
          intra.Close < intra.Open
       then Except.ok (some Signal.bearish)
       else Except.ok none) := by
    simp [detect_kicker, hne]
  have conj4 : detect_kicker ⟨100, 100, 100, 100⟩ ⟨1006/10, 1004/10⟩ =
      Except.ok none := by
    norm_num [detect_kicker]
  by_cases h1 : (5 : ℚ)/1000 ≤ (intra.Open - prev.Close) / prev.Close ∧
      intra.Close > intra.Open
  · have h2 : ¬((5 : ℚ)/1000 ≤ (prev.Close - intra.Open) / prev.Close ∧
        intra.Close < intra.Open) :=
      fun hb => absurd hb.2 (not_lt_of_gt h1.2)
    refine ⟨?_, ?_, ?_, conj4⟩ <;> simp [key, h1, h2]
  · by_cases h2 : (5 : ℚ)/1000 ≤ (prev.Close - intra.Open) / prev.Close ∧
        intra.Close < intra.Open
    · refine ⟨?_, ?_, ?_, conj4⟩ <;> simp [key, h1, h2]
    · refine ⟨?_, ?_, ?_, conj4⟩ <;> simp [key, h1, h2]

/-- Witness for C1 at prevClose 100, referenceOpen 101, referenceClose 102. -/
theorem detect_kicker_gap_threshold_iff_witness :
    (detect_kicker ⟨99, 100, 98, 100⟩ ⟨101, 102⟩ =
        Except.ok (some Signal.bullish) ↔
      (5 : ℚ)/1000 ≤ ((101 : ℚ) - 100) / 100 ∧ (102 : ℚ) > 101) :=
  (detect_kicker_gap_threshold_iff ⟨99, 100, 98, 100⟩ ⟨101, 102⟩
    (by norm_num)).1

/-- C2: strict-kicker detection (modelled from the spec, absent from src/)
returns bullish whenever the previous body is bearish, the reference open
gaps above the previous high, and the reference body is bullish; and
symmetrically returns bearish with all three comparisons reversed and the
gap below the previous low. -/
theorem detect_kicker_strict_signals (p q : PrevCandle) (i j : IntraCandle)
    (hb1 : p.Close < p.Open) (hb2 : p.High < i.Open) (hb3 : i.Open < i.Close)
    (hs1 : q.Open < q.Close) (hs2 : j.Open < q.Low) (hs3 : j.Close < j.Open) :
    detect_kicker_strict p i = some Signal.bullish ∧
    detect_kicker_strict q j = some Signal.bearish := by
  constructor
  · have hcond : p.Close < p.Open ∧ i.Open > p.High ∧ i.Close > i.Open :=
      ⟨hb1, hb2, hb3⟩
    simp [detect_kicker_strict, hcond]
  · have hnot : ¬(q.Close < q.Open ∧ j.Open > q.High ∧ j.Close > j.Open) :=
      fun hc => absurd hc.1 (not_lt_of_gt hs1)
    have hcond : q.Close > q.Open ∧ j.Open < q.Low ∧ j.Close < j.Open :=
      ⟨hs1, hs2, hs3⟩
    simp [detect_kicker_strict, hnot, hcond]

/-- Witness for C2 at the spec example: previous candle open 10, high 10.5,
low 9.8, close 9.9, reference candle open 10.8, close 11; and the mirrored
bearish pair. -/
theorem detect_kicker_strict_signals_witness :
    detect_kicker_strict ⟨10, 105/10, 98/10, 99/10⟩ ⟨108/10, 11⟩ =
        some Signal.bullish ∧
    detect_kicker_strict ⟨10, 102/10, 98/10, 101/10⟩ ⟨97/10, 95/10⟩ =
        some Signal.bearish :=
  detect_kicker_strict_signals ⟨10, 105/10, 98/10, 99/10⟩
    ⟨10, 102/10, 98/10, 101/10⟩ ⟨108/10, 11⟩ ⟨97/10, 95/10⟩
    (by norm_num) (by norm_num) (by norm_num)
    (by norm_num) (by norm_num) (by norm_num)

/-- C10: detect_kicker raises ZeroDivisionError exactly when the previous
close is zero; it is error-free on every other candle pair. -/
theorem detect_kicker_zero_division (prev : PrevCandle) (intra : IntraCandle) :
    (detect_kicker prev intra = Except.error ("ZeroDivisionError")) ↔
      prev.Close = 0 := by
  by_cases h0 : prev.Close = 0
  · simp [detect_kicker, h0]
  · have key : detect_kicker prev intra =
        (if (5 : ℚ)/1000 ≤ (intra.Open - prev.Close) / prev.Close ∧
            intra.Close > intra.Open
         then Except.ok (some Signal.bullish)
         else if (5 : ℚ)/1000 ≤ (prev.Close - intra.Open) / prev.Close ∧
            intra.Close < intra.Open
         then Except.ok (some Signal.bearish)
         else Except.ok none) := by
      simp [detect_kicker, h0]
    rw [key]
    split_ifs <;> simp [h0]

end KickerSP500

namespace KickerSP500

/-- load_universe from src/detector.py (lines 79-85).  The input models the
ticker column produced by pd.read_csv: one optional string per row, none for
a missing value.  The dropna call removes missing tickers; the next source
line then evaluates the expression formed by calling astype and then strip
directly on the pandas Series object.  A pandas Series has no strip
attribute (string methods live under the str accessor), so that attribute
access raises AttributeError before any normalization or truncation runs,
for every input; modelled as the error branch. -/
def load_universe (tickerCol : List (Option String)) :
    Except String (List (String × String)) :=
  let _df := tickerCol.filterMap id
  Except.error ("AttributeError: Series object has no attribute strip")

/-- C3 (code bug): on a well-formed ticker column the universe loader does
not return the normalized universe; the Series strip call raises
AttributeError, so load_universe fails on every input, including this
three-row column. -/
theorem load_universe_always_raises :
    load_universe [some ("BRK-B"), none, some ("AAPL")] =
      Except.error ("AttributeError: Series object has no attribute strip") := rfl

end KickerSP500

namespace KickerSP500

/-- Rate-limiter state of src/detector.py: the module globals
req_times_minute (deque of grant timestamps, appended in time order, so the
front is the oldest) and req_count_day. -/
structure RLState where
  req_times_minute : List ℚ
  req_count_day : ℕ
deriving DecidableEq

/-- The prune loop of rate_limit_block (lines 59-60 and 68-69 of
src/detector.py): while the deque is nonempty and now minus the front
exceeds 60 seconds, pop the front. -/
def pruneWindow (now : ℚ) : List ℚ → List ℚ
  | [] => []
  | t :: ts => if 60 < now - t then pruneWindow now ts else t :: ts

/-- One sleep of the per-minute wait loop: the source computes
sleep_for = 60 - (now - front) and sleeps min(sleep_for, 1.0) when
sleep_for is positive, otherwise it does not sleep. -/
def sleepStep (now t0 : ℚ) : ℚ :=
  if 0 < 60 - (now - t0) then min (60 - (now - t0)) 1 else 0

/-- The per-minute while loop of rate_limit_block (lines 62-69): while the
deque holds at least cap timestamps, sleep, re-read the clock, and prune.
The clock is explicit: after sleeping d the re-read clock shows
now + d + eps k, where eps k is the nonnegative time iteration k spends
outside sleep.  fuel bounds the iterations modelled; none means the fuel
ran out.  Returns the deque, the clock, and the accumulated sleep at loop
exit. -/
def minuteWait (cap : ℕ) (eps : ℕ → ℚ) :
    ℕ → List ℚ → ℚ → ℚ → Option (List ℚ × ℚ × ℚ)
  | 0, times, now, slept =>
      if times.length < cap then some (times, now, slept) else none
  | fuel + 1, times, now, slept =>
      if times.length < cap then some (times, now, slept)
      else
        match times with
        | [] => none
        | t0 :: _ =>
          minuteWait cap eps fuel
            (pruneWindow (now + sleepStep now t0 + eps fuel) times)
            (now + sleepStep now t0 + eps fuel)
            (slept + sleepStep now t0)

/-- Outcome of one rate_limit_block call. -/
inductive RLResult where
  | dailyLimit (st : RLState) (totalSleep : ℚ)
  | fuelOut
  | granted (st : RLState) (grantTime : ℚ) (totalSleep : ℚ)
deriving DecidableEq

/-- rate_limit_block from src/detector.py (lines 49-73).  The daily check
comes first and raises without touching any state; otherwise the deque is
pruned at the current clock, the per-minute loop runs, and on exit the
grant timestamp is appended and the day counter incremented. -/
def rate_limit_block (maxPerMinute maxPerDay fuel : ℕ) (eps : ℕ → ℚ)
    (st : RLState) (now : ℚ) : RLResult :=
  if maxPerDay ≤ st.req_count_day then
    RLResult.dailyLimit st 0
  else
    match minuteWait maxPerMinute eps fuel
        (pruneWindow now st.req_times_minute) now 0 with
    | none => RLResult.fuelOut
    | some (times2, now2, slept) =>
        RLResult.granted ⟨times2 ++ [now2], st.req_count_day + 1⟩ now2 slept

theorem sleepStep_nonneg (now t0 : ℚ) : 0 ≤ sleepStep now t0 := by
  unfold sleepStep
  split_ifs with hp
  · exact le_min hp.le zero_le_one
  · exact le_refl 0

theorem minuteWait_length_lt {cap : ℕ} {eps : ℕ → ℚ} :
    ∀ (fuel : ℕ) (times : List ℚ) (now slept : ℚ) {times2 : List ℚ}
      {now2 slept2 : ℚ},
      minuteWait cap eps fuel times now slept = some (times2, now2, slept2) →
      times2.length < cap := by
  intro fuel
  induction fuel with
  | zero =>
    intro times now slept times2 now2 slept2 h
    by_cases hlen : times.length < cap
    · rw [minuteWait, if_pos hlen] at h
      simp only [Option.some_inj, Prod.mk.injEq] at h
      exact h.1 ▸ hlen
    · rw [minuteWait, if_neg hlen] at h
      exact Option.noConfusion h
  | succ n ih =>
    intro times now slept times2 now2 slept2 h
    cases times with
    | nil =>
      by_cases hlen : (List.nil : List ℚ).length < cap
      · rw [minuteWait, if_pos hlen] at h
        simp only [Option.some_inj, Prod.mk.injEq] at h
        exact h.1 ▸ hlen
      · rw [minuteWait, if_neg hlen] at h
        exact Option.noConfusion h
    | cons t0 rest =>
      by_cases hlen : (t0 :: rest).length < cap
      · rw [minuteWait, if_pos hlen] at h
        simp only [Option.some_inj, Prod.mk.injEq] at h
        exact h.1 ▸ hlen
      · rw [minuteWait, if_neg hlen] at h
        exact ih _ _ _ h

theorem minuteWait_now_le {cap : ℕ} {eps : ℕ → ℚ} (heps : ∀ k, 0 ≤ eps k) :
    ∀ (fuel : ℕ) (times : List ℚ) (now slept : ℚ) {times2 : List ℚ}
      {now2 slept2 : ℚ},
      minuteWait cap eps fuel times now slept = some (times2, now2, slept2) →
      now ≤ now2 := by
  intro fuel
  induction fuel with
  | zero =>
    intro times now slept times2 now2 slept2 h
    by_cases hlen : times.length < cap
    · rw [minuteWait, if_pos hlen] at h
      simp only [Option.some_inj, Prod.mk.injEq] at h
      exact le_of_eq h.2.1
    · rw [minuteWait, if_neg hlen] at h
      exact Option.noConfusion h
  | succ n ih =>
    intro times now slept times2 now2 slept2 h
    cases times with
    | nil =>
      by_cases hlen : (List.nil : List ℚ).length < cap
      · rw [minuteWait, if_pos hlen] at h
        simp only [Option.some_inj, Prod.mk.injEq] at h
        exact le_of_eq h.2.1
      · rw [minuteWait, if_neg hlen] at h
        exact Option.noConfusion h
    | cons t0 rest =>
      by_cases hlen : (t0 :: rest).length < cap
      · rw [minuteWait, if_pos hlen] at h
        simp only [Option.some_inj, Prod.mk.injEq] at h
        exact le_of_eq h.2.1
      · rw [minuteWait, if_neg hlen] at h
        have step : now ≤ now + sleepStep now t0 + eps n := by
          have h1 := sleepStep_nonneg now t0
          have h2 := heps n
          linarith
        exact step.trans (ih _ _ _ h)

theorem minuteWait_blocked {cap : ℕ} {eps : ℕ → ℚ} (heps : ∀ k, 0 ≤ eps k) :
    ∀ (fuel : ℕ) (t0 : ℚ) (rest : List ℚ) (now slept : ℚ) {times2 : List ℚ}
      {now2 slept2 : ℚ},
      cap ≤ (t0 :: rest).length →
      minuteWait cap eps fuel (t0 :: rest) now slept =
        some (times2, now2, slept2) →
      60 < now2 - t0 := by
  intro fuel
  induction fuel with
  | zero =>
    intro t0 rest now slept times2 now2 slept2 hcap h
    rw [minuteWait, if_neg (not_lt_of_ge hcap)] at h
    exact Option.noConfusion h
  | succ n ih =>
    intro t0 rest now slept times2 now2 slept2 hcap h
    rw [minuteWait, if_neg (not_lt_of_ge hcap)] at h
    by_cases hp : 60 < now + sleepStep now t0 + eps n - t0
    · have hprune : pruneWindow (now + sleepStep now t0 + eps n) (t0 :: rest) =
          pruneWindow (now + sleepStep now t0 + eps n) rest := by
        simp [pruneWindow, hp]
      rw [hprune] at h
      have hmono := minuteWait_now_le heps n _ _ _ h
      linarith
    · have hprune : pruneWindow (now + sleepStep now t0 + eps n) (t0 :: rest) =
          t0 :: rest := by
        simp [pruneWindow, hp]
      rw [hprune] at h
      exact ih t0 rest _ _ hcap h

/-- C4: once the per-day counter has reached the daily cap, the acquire
operation fails immediately with the daily-limit error: the state is
returned untouched and no time is slept. -/
theorem rate_limit_daily_cap (maxPerMinute maxPerDay fuel : ℕ) (eps : ℕ → ℚ)
    (st : RLState) (now : ℚ) (h : maxPerDay ≤ st.req_count_day) :
    rate_limit_block maxPerMinute maxPerDay fuel eps st now =
      RLResult.dailyLimit st 0 := by
  simp [rate_limit_block, h]

/-- Witness for C4: a state whose day counter sits at the default daily cap
of 780. -/
theorem rate_limit_daily_cap_witness :
    rate_limit_block 7 780 5 (fun _ => 0) ⟨[], 780⟩ 0 =
      RLResult.dailyLimit ⟨[], 780⟩ 0 :=
  rate_limit_daily_cap 7 780 5 (fun _ => 0) ⟨[], 780⟩ 0 (by norm_num)

/-- Membership test for the trailing 60-second window ending at grant
time g. -/
def inWindow (g t : ℚ) : Bool :=
  decide (g - t ≤ 60)

theorem minuteWait_nil_cap_zero (eps : ℕ → ℚ) :
    ∀ (fuel : ℕ) (now slept : ℚ),
      minuteWait 0 eps fuel [] now slept = none := by
  intro fuel now slept
  cases fuel with
  | zero => rw [minuteWait, if_neg (by simp)]
  | succ n => rw [minuteWait, if_neg (by simp)]

/-- C5: whenever the acquire operation grants a slot, the deque at the
grant moment holds at most maxPerMinute timestamps inside the trailing
60-second window; and when the pruned deque at call time is already at the
per-minute cap, the grant time lies strictly more than 60 seconds after the
front (oldest) timestamp, i.e. the slot is granted only once the oldest
timestamp has left the window. -/
theorem rate_limit_minute_window (maxPerMinute maxPerDay fuel : ℕ)
    (eps : ℕ → ℚ) (st st2 : RLState) (now g slept : ℚ)
    (heps : ∀ k, 0 ≤ eps k)
    (h : rate_limit_block maxPerMinute maxPerDay fuel eps st now =
      RLResult.granted st2 g slept) :
    st2.req_times_minute.countP (inWindow g) ≤ maxPerMinute ∧
    ((pruneWindow now st.req_times_minute).length < maxPerMinute ∨
      60 < g - (pruneWindow now st.req_times_minute).headI) := by
  unfold rate_limit_block at h
  by_cases hday : maxPerDay ≤ st.req_count_day
  · rw [if_pos hday] at h
    exact RLResult.noConfusion h
  · rw [if_neg hday] at h
    rcases hmw : minuteWait maxPerMinute eps fuel
        (pruneWindow now st.req_times_minute) now 0 with _ | ⟨times2, now2, slept2⟩
    · rw [hmw] at h
      exact RLResult.noConfusion h
    · rw [hmw] at h
      injection h with h1 h2 h3
      constructor
      · rw [← h1]
        have hlt : times2.length < maxPerMinute :=
          minuteWait_length_lt fuel _ now 0 hmw
        have hc : (times2 ++ [now2]).countP (inWindow g) ≤
            (times2 ++ [now2]).length := List.countP_le_length _
        have hl : (times2 ++ [now2]).length = times2.length + 1 := by simp
        calc (times2 ++ [now2]).countP (inWindow g) ≤
              (times2 ++ [now2]).length := hc
          _ = times2.length + 1 := hl
          _ ≤ maxPerMinute := hlt
      · rcases hpr : pruneWindow now st.req_times_minute with _ | ⟨t0, rest⟩
        · by_cases hm : 0 < maxPerMinute
          · left
            simpa using hm
          · have hm0 : maxPerMinute = 0 := Nat.eq_zero_of_not_pos hm
            rw [hpr, hm0, minuteWait_nil_cap_zero eps fuel now 0] at hmw
            exact Option.noConfusion hmw
        · by_cases hlen : (t0 :: rest).length < maxPerMinute
          · left
            exact hlen
          · right
            rw [hpr] at hmw
            have hblock := minuteWait_blocked heps fuel t0 rest now 0
              (le_of_not_lt hlen) hmw
            rw [← h2]
            simpa using hblock

/-- Witness for C5: per-minute cap 1, one granted timestamp at time 0, call
at time 59.5; the loop sleeps half a second, the oldest timestamp leaves
the window, and the slot is granted at time 60.25. -/
theorem rate_limit_minute_window_witness :
    ((⟨[(241 : ℚ)/4], 1⟩ : RLState).req_times_minute.countP
        (inWindow ((241 : ℚ)/4)) ≤ 1) ∧
    ((pruneWindow ((119 : ℚ)/2) ([0] : List ℚ)).length < 1 ∨
      60 < (241 : ℚ)/4 - (pruneWindow ((119 : ℚ)/2) ([0] : List ℚ)).headI) :=
  rate_limit_minute_window 1 780 3 (fun _ => 1/4) ⟨[0], 0⟩ ⟨[241/4], 1⟩
    (119/2) (241/4) (1/2) (fun k => by norm_num)
    (by norm_num [rate_limit_block, minuteWait, pruneWindow, sleepStep, min_def])

end KickerSP500

namespace KickerSP500

/-- Number of attempts of the fetch loop (MAX_RETRIES in src/detector.py,
line 27). -/
def MAX_RETRIES : ℕ := 3

/-- Base of the exponential backoff (RETRY_BACKOFF_SEC in src/detector.py,
line 28): the loop sleeps RETRY_BACKOFF_SEC ** attempt after a failed
attempt. -/
def RETRY_BACKOFF_SEC : ℚ := 3/2

/-- Outcome the environment produces for one attempt of the fetch loop in
safe_get: either the try block raised (a requests.get failure, or the rate
limiter), or an HTTP response came back with a status code and a text
body. -/
inductive AttemptOutcome where
  | exn (msg : String)
  | response (status : ℕ) (body : String)
deriving DecidableEq

/-- The string recorded as last_err when an attempt fails: the exception
itself, or the HTTP line built from a non-200 response (the source
truncates the body to 200 characters; the truncation is omitted here). -/
def attemptErr : AttemptOutcome → String
  | AttemptOutcome.exn msg => msg
  | AttemptOutcome.response status body =>
      "HTTP " ++ toString status ++ ": " ++ body

/-- True when the attempt does not produce a 200 response, so the loop
records an error and retries. -/
def attemptFails : AttemptOutcome → Bool
  | AttemptOutcome.exn _ => true
  | AttemptOutcome.response status _ => status != 200

/-- Bool-valued infix test on character lists, used to embed the Python
substring operator. -/
def containsSub (pat : List Char) : List Char → Bool
  | [] => pat.isEmpty
  | c :: t => pat.isPrefixOf (c :: t) || containsSub pat t

/-- The Twelve Data plan-restriction message checked by the caller of
safe_get. -/
def planMsg : String := "Pre/post data is available on Pro+ plans"

/-- is_prepost_plan_error from src/detector.py (lines 118-122): a message
is a plan-restriction error when it contains the Twelve Data Pro+ plan
sentence, or contains pre/post case-insensitively.  Python str.lower is
embedded as a character-wise lowering of the char list. -/
def _is_prepost_plan_error (msg : Option String) : Bool :=
  match msg with
  | none => false
  | some m =>
      containsSub planMsg.data m.data ||
      containsSub ("pre/post").data (m.data.map Char.toLower)

/-- The retry loop of safe_get (src/detector.py lines 90-102).  att k is
the outcome of the k-th attempt; remaining counts attempts left.  A 200
response returns its body at once, before any sleep; any other outcome
records its error string as last_err, sleeps RETRY_BACKOFF_SEC ^ attempt,
and iterates; when attempts run out the recorded last error is raised.
Returns the result, the number of attempts made, and the list of backoff
sleeps in order. -/
def safe_get_go (att : ℕ → AttemptOutcome) :
    ℕ → ℕ → Option String → List ℚ → Except String String × ℕ × List ℚ
  | attempt, 0, lastErr, sleeps =>
      (Except.error (lastErr.getD ("Unknown HTTP error")), attempt - 1, sleeps)
  | attempt, remaining + 1, lastErr, sleeps =>
      match att attempt with
      | AttemptOutcome.exn msg =>
          safe_get_go att (attempt + 1) remaining
            (some msg) (sleeps ++ [RETRY_BACKOFF_SEC ^ attempt])
      | AttemptOutcome.response status body =>
          if status = 200 then (Except.ok body, attempt, sleeps)
          else
            safe_get_go att (attempt + 1) remaining
              (some ("HTTP " ++ toString status ++ ": " ++ body))
              (sleeps ++ [RETRY_BACKOFF_SEC ^ attempt])

/-- safe_get from src/detector.py: the loop runs for attempt = 1 up to
MAX_RETRIES. -/
def safe_get (att : ℕ → AttemptOutcome) :
    Except String String × ℕ × List ℚ :=
  safe_get_go att 1 MAX_RETRIES none []

theorem safe_get_go_fail_step (att : ℕ → AttemptOutcome)
    (attempt remaining : ℕ) (lastErr : Option String) (sleeps : List ℚ)
    (hf : attemptFails (att attempt) = true) :
    safe_get_go att attempt (remaining + 1) lastErr sleeps =
      safe_get_go att (attempt + 1) remaining
        (some (attemptErr (att attempt)))
        (sleeps ++ [RETRY_BACKOFF_SEC ^ attempt]) := by
  rcases hatt : att attempt with msg | ⟨status, body⟩
  · simp only [safe_get_go, hatt, attemptErr]
  · rw [hatt, attemptFails] at hf
    have hs : status ≠ 200 := by simpa using hf
    simp only [safe_get_go, hatt, attemptErr, if_neg hs]

end KickerSP500

namespace KickerSP500

/-- An environment in which every attempt raises a timeout exception. -/
def allTimeout : ℕ → AttemptOutcome :=
  fun _ => AttemptOutcome.exn ("timeout")

/-- An environment in which every attempt returns HTTP 200 carrying the
Twelve Data plan-restriction message: the vendor reports plan and
authorization failures in the payload of a 200 response, which is exactly
why safe_get never retries them. -/
def planRestricted : ℕ → AttemptOutcome :=
  fun _ => AttemptOutcome.response 200 planMsg

/-- C6: when every attempt fails, safe_get makes exactly MAX_RETRIES
attempts (so at most MAX_RETRIES), sleeps the exponentially growing
backoffs 1.5^1, 1.5^2, 1.5^3, and raises the error of the last attempt;
and a plan-restriction (or authorization) failure, which the vendor
delivers as a 200 response whose body matches is_prepost_plan_error, is
returned to the caller on the first attempt with no retry and no sleep. -/
theorem safe_get_retry_policy (att : ℕ → AttemptOutcome) (body : String)
    (hfail : ∀ k, attemptFails (att k) = true)
    (hplan : _is_prepost_plan_error (some body) = true) :
    (safe_get att).2.1 = MAX_RETRIES ∧
    (safe_get att).1 = Except.error (attemptErr (att MAX_RETRIES)) ∧
    (safe_get att).2.2 =
      [RETRY_BACKOFF_SEC ^ 1, RETRY_BACKOFF_SEC ^ 2, RETRY_BACKOFF_SEC ^ 3] ∧
    safe_get (fun _ => AttemptOutcome.response 200 body) =
      (Except.ok body, 1, []) := by
  have hrun : safe_get att =
      (Except.error (attemptErr (att 3)), 3,
        [RETRY_BACKOFF_SEC ^ 1, RETRY_BACKOFF_SEC ^ 2,
          RETRY_BACKOFF_SEC ^ 3]) :=
    calc safe_get att
        = safe_get_go att 2 2 (some (attemptErr (att 1)))
            [RETRY_BACKOFF_SEC ^ 1] :=
          safe_get_go_fail_step att 1 2 none [] (hfail 1)
      _ = safe_get_go att 3 1 (some (attemptErr (att 2)))
            [RETRY_BACKOFF_SEC ^ 1, RETRY_BACKOFF_SEC ^ 2] :=
          safe_get_go_fail_step att 2 1 _ _ (hfail 2)
      _ = safe_get_go att 4 0 (some (attemptErr (att 3)))
            [RETRY_BACKOFF_SEC ^ 1, RETRY_BACKOFF_SEC ^ 2,
              RETRY_BACKOFF_SEC ^ 3] :=
          safe_get_go_fail_step att 3 0 _ _ (hfail 3)
      _ = (Except.error (attemptErr (att 3)), 3,
            [RETRY_BACKOFF_SEC ^ 1, RETRY_BACKOFF_SEC ^ 2,
              RETRY_BACKOFF_SEC ^ 3]) := rfl
  have hok : safe_get (fun _ => AttemptOutcome.response 200 body) =
      (Except.ok body, 1, []) := rfl
  exact ⟨by rw [hrun]; exact rfl, by rw [hrun]; exact rfl,
    by rw [hrun], hok⟩

/-- Witness for C6: an environment of timeouts, and the Twelve Data Pro+
plan message as the 200-response body. -/
theorem safe_get_retry_policy_witness :
    (safe_get allTimeout).2.1 = MAX_RETRIES ∧
    (safe_get allTimeout).1 =
      Except.error (attemptErr (allTimeout MAX_RETRIES)) ∧
    (safe_get allTimeout).2.2 =
      [RETRY_BACKOFF_SEC ^ 1, RETRY_BACKOFF_SEC ^ 2, RETRY_BACKOFF_SEC ^ 3] ∧
    safe_get planRestricted = (Except.ok planMsg, 1, []) :=
  safe_get_retry_policy allTimeout planMsg (fun k => rfl) (by decide)

end KickerSP500

namespace KickerSP500

/-- What one iteration of the per-ticker loop in main (src/detector.py
lines 265-323) amounts to for the counters, as determined by the fetch
environment: the previous daily candle was missing; the reference intraday
candle was missing, with its reason string; both candles arrived and the
detector ran, possibly yielding a signal; or the iteration raised and the
except branch ran. -/
inductive TickerOutcome where
  | prevMissing (reason : String)
  | intraMissing (reason : String)
  | classified (sig : Option Signal)
  | raised (msg : String)
deriving DecidableEq

/-- The counters accumulated by main: checked, too_early_or_missing
(written to the output as skipped_missing_intra) and errors. -/
structure RunCounts where
  checked : ℕ
  too_early_or_missing : ℕ
  errors : ℕ
deriving DecidableEq

/-- Counter update of one loop iteration: a missing previous candle only
writes a diagnostics row; a missing reference candle increments
too_early_or_missing exactly when the reason is no_premarket_0929 or
no_open_0930; a classified ticker increments checked; a raised exception
increments errors. -/
def stepCounts (c : RunCounts) : TickerOutcome → RunCounts
  | TickerOutcome.prevMissing _ => c
  | TickerOutcome.intraMissing reason =>
      if reason = "no_premarket_0929" ∨ reason = "no_open_0930" then
        { c with too_early_or_missing := c.too_early_or_missing + 1 }
      else c
  | TickerOutcome.classified _ => { c with checked := c.checked + 1 }
  | TickerOutcome.raised _ => { c with errors := c.errors + 1 }

/-- The counters after the whole per-ticker loop, one outcome per ticker
of the universe. -/
def runCounts (outs : List TickerOutcome) : RunCounts :=
  outs.foldl stepCounts ⟨0, 0, 0⟩

theorem foldl_counts_le (outs : List TickerOutcome) :
    ∀ c : RunCounts,
      (outs.foldl stepCounts c).checked +
        (outs.foldl stepCounts c).too_early_or_missing +
        (outs.foldl stepCounts c).errors ≤
      c.checked + c.too_early_or_missing + c.errors + outs.length := by
  induction outs with
  | nil => intro c; simp
  | cons o t ih =>
    intro c
    have h := ih (stepCounts c o)
    have hstep : (stepCounts c o).checked +
        (stepCounts c o).too_early_or_missing + (stepCounts c o).errors ≤
        c.checked + c.too_early_or_missing + c.errors + 1 := by
      cases o with
      | prevMissing r => simp [stepCounts]
      | intraMissing r =>
        by_cases hr : r = "no_premarket_0929" ∨ r = "no_open_0930" <;>
          simp [stepCounts, hr] <;> omega
      | classified s => simp [stepCounts]; omega
      | raised m => simp [stepCounts]; omega
    simp only [List.foldl_cons, List.length_cons]
    omega

/-- C7: for every run, checked plus skipped_missing_intra plus errors is
at most the universe size (the number of loop iterations), because each
iteration increments at most one of the three counters. -/
theorem run_counts_bound (outs : List TickerOutcome) :
    (runCounts outs).checked + (runCounts outs).too_early_or_missing +
      (runCounts outs).errors ≤ outs.length := by
  have h := foldl_counts_le outs ⟨0, 0, 0⟩
  simpa [runCounts] using h

end KickerSP500

namespace KickerSP500

/-- Python dict.get with a default, over a JSON object modelled as an
association list of string keys and numeric values. -/
def jget (obj : List (String × ℕ)) (key : String) (default : ℕ) : ℕ :=
  match obj.find? (fun kv => kv.1 == key) with
  | some kv => kv.2
  | none => default

/-- The parsed content of a run-output file, as far as the reader touches
it: the bullish and bearish symbol lists, the numeric fields of meta, and
the counts object when present.  String-valued meta fields (provider,
note, dates, config echo) are never read by the count normalization and
are omitted. -/
structure ResultDoc where
  bullish : List String
  bearish : List String
  meta : List (String × ℕ)
  counts : Option (List (String × ℕ))
deriving DecidableEq

/-- State of the dated output file as the reader finds it. -/
inductive FileState where
  | missing
  | unparsable
  | parsed (doc : ResultDoc)
deriving DecidableEq

/-- Status reported by read_results. -/
inductive ReadStatus where
  | pending
  | error
  | ok
deriving DecidableEq

/-- What read_results returns: the status, and on ok the normalized
counts object. -/
structure ReadResult where
  status : ReadStatus
  counts : Option (List (String × ℕ))
deriving DecidableEq

/-- The fixed reader cutoff (src/reader.py line 22), compared as a string
against the current New York HH:MM:SS. -/
def cutoff : String := "09:34:00"

/-- The count normalization of read_results (src/reader.py lines 50-58):
each field of the rebuilt counts object takes the value found in the
parsed counts object under the same key, defaulting for bullish and
bearish to the list lengths and for the rest to the meta field of the
same name (universe reads meta key universe_size), defaulting to 0.  Note
the skipped key the reader uses is skipped_too_early. -/
def normalizeCounts (doc : ResultDoc) : List (String × ℕ) :=
  let counts := doc.counts.getD []
  [("bullish", jget counts ("bullish") doc.bullish.length),
   ("bearish", jget counts ("bearish") doc.bearish.length),
   ("universe", jget counts ("universe") (jget doc.meta ("universe_size") 0)),
   ("checked", jget counts ("checked") (jget doc.meta ("checked") 0)),
   ("skipped_too_early",
     jget counts ("skipped_too_early") (jget doc.meta ("skipped_too_early") 0)),
   ("errors", jget counts ("errors") (jget doc.meta ("errors") 0))]

/-- read_results from src/reader.py (lines 16-48): pending when the dated
file does not exist and the clock string is before the cutoff, error when
it does not exist at or after the cutoff, error when it exists but fails
to parse as JSON, and ok with normalized counts when it parses. -/
def read_results (file : FileState) (hhmmss : String) : ReadResult :=
  match file with
  | FileState.missing =>
      if hhmmss < cutoff then ⟨ReadStatus.pending, none⟩
      else ⟨ReadStatus.error, none⟩
  | FileState.unparsable => ⟨ReadStatus.error, none⟩
  | FileState.parsed doc => ⟨ReadStatus.ok, some (normalizeCounts doc)⟩

/-- C8: the reader reports pending exactly for a missing file before the
cutoff, error for a missing file at or after the cutoff, error for an
unparsable file, and ok for a parsed file, at any clock time. -/
theorem read_results_status (doc : ResultDoc) (t1 t2 : String)
    (h1 : t1 < cutoff) (h2 : ¬ t2 < cutoff) :
    (read_results FileState.missing t1).status = ReadStatus.pending ∧
    (read_results FileState.missing t2).status = ReadStatus.error ∧
    (read_results FileState.unparsable t1).status = ReadStatus.error ∧
    (read_results FileState.unparsable t2).status = ReadStatus.error ∧
    (read_results (FileState.parsed doc) t1).status = ReadStatus.ok ∧
    (read_results (FileState.parsed doc) t2).status = ReadStatus.ok := by
  refine ⟨?_, ?_, rfl, rfl, rfl, rfl⟩
  · simp [read_results, h1]
  · simp [read_results, h2]

/-- Witness for C8 at clock strings 09:00:00 and 10:00:00 and an empty
document. -/
theorem read_results_status_witness :
    (read_results FileState.missing ("09:00:00")).status =
        ReadStatus.pending ∧
    (read_results FileState.missing ("10:00:00")).status =
        ReadStatus.error ∧
    (read_results FileState.unparsable ("09:00:00")).status =
        ReadStatus.error ∧
    (read_results FileState.unparsable ("10:00:00")).status =
        ReadStatus.error ∧
    (read_results (FileState.parsed ⟨[], [], [], none⟩)
        ("09:00:00")).status = ReadStatus.ok ∧
    (read_results (FileState.parsed ⟨[], [], [], none⟩)
        ("10:00:00")).status = ReadStatus.ok :=
  read_results_status ⟨[], [], [], none⟩ ("09:00:00") ("10:00:00")
    (by rw [String.lt_iff_toList_lt]; decide)
    (by rw [String.lt_iff_toList_lt]; decide)

end KickerSP500

namespace KickerSP500

/-- The numeric metadata written by main into the run-output document
(src/detector.py lines 329-351).  String-valued meta fields (provider,
note, dates, config echo) are omitted: the count normalization in the
reader reads only numeric keys.  The writer records the skipped counter
under the key skipped_missing_intra. -/
def writerMeta (universeSize checked skippedMissingIntra errors
    usedFallback : ℕ) : List (String × ℕ) :=
  [("universe_size", universeSize), ("checked", checked),
   ("skipped_missing_intra", skippedMissingIntra), ("errors", errors),
   ("used_fallback_count", usedFallback)]

/-- The counts object written by main (src/detector.py lines 354-361),
again with the skipped counter under the key skipped_missing_intra. -/
def writerCounts (bullish bearish : List String)
    (universeSize checked skipped errors : ℕ) : List (String × ℕ) :=
  [("bullish", bullish.length), ("bearish", bearish.length),
   ("universe", universeSize), ("checked", checked),
   ("skipped_missing_intra", skipped), ("errors", errors)]

/-- The run-output document assembled by main (src/detector.py lines
325-361), as far as the reader touches it. -/
def writerDoc (bullish bearish : List String)
    (universeSize checked skipped errors usedFallback : ℕ) : ResultDoc :=
  { bullish := bullish, bearish := bearish,
    meta := writerMeta universeSize checked skipped errors usedFallback,
    counts := some (writerCounts bullish bearish universeSize checked
      skipped errors) }

/-- C9 (code bug): the reader does not recover the skipped count recorded
by the writer.  The writer stores it under the key skipped_missing_intra,
in meta and in counts, while the reader normalizes the key
skipped_too_early, falling back to the meta key skipped_too_early and then
to 0.  On a writer document with 5 skipped tickers whose counts object is
absent, the normalized skipped count is 0, although the writer recorded 5
under skipped_missing_intra; the other five count fields do round-trip. -/
theorem reader_skipped_key_mismatch :
    jget (normalizeCounts
        { writerDoc ["AAA"] [] 10 4 5 1 0 with counts := none })
        ("skipped_too_early") 99 = 0 ∧
    jget (writerMeta 10 4 5 1 0) ("skipped_missing_intra") 99 = 5 ∧
    jget (normalizeCounts
        { writerDoc ["AAA"] [] 10 4 5 1 0 with counts := none })
        ("bullish") 99 = 1 ∧
    jget (normalizeCounts
        { writerDoc ["AAA"] [] 10 4 5 1 0 with counts := none })
        ("universe") 99 = 10 ∧
    jget (normalizeCounts
        { writerDoc ["AAA"] [] 10 4 5 1 0 with counts := none })
        ("checked") 99 = 4 ∧
    jget (normalizeCounts
        { writerDoc ["AAA"] [] 10 4 5 1 0 with counts := none })
        ("errors") 99 = 1 := by
  refine ⟨rfl, rfl, rfl, rfl, rfl, rfl⟩

end KickerSP500
